import Mathlib

/-!
Shallow embedding of the revision-approval workflow core of the repository
(`app/services/workflow.py`, `app/services/approval.py`,
`app/services/permission.py`, `app/services/edit_history.py`,
`app/services/revision.py`, `app/repositories/revision.py`,
`app/constants/enums.py`, `app/models/*`).

Database-backed state is modelled as explicit lists of records; each
service method becomes a pure function that takes the state and returns
either an error (the exception the Python code raises) or the new state
together with the returned entity.  Timestamps are modelled as `Nat`
(`datetime.utcnow()` becomes an explicit `now` argument).  UUIDs are
modelled as `Nat` identifiers.
-/

/-- `app/constants/enums.py` — `Role`. -/
inductive Role where
  | general
  | supervisor
  | approver
  | admin
deriving DecidableEq, Repr

/-- `app/constants/enums.py` — `RevisionStatus`. -/
inductive RevisionStatus where
  | draft
  | under_review
  | revision_requested
  | approved
  | rejected
  | withdrawn
deriving DecidableEq, Repr

/-- The `.value` string of each `RevisionStatus` member. -/
def RevisionStatus.value : RevisionStatus → String
  | .draft => "draft"
  | .under_review => "under_review"
  | .revision_requested => "revision_requested"
  | .approved => "approved"
  | .rejected => "rejected"
  | .withdrawn => "withdrawn"

/-- `app/constants/enums.py` — `ApprovalAction`.  The source enum defines
only `APPROVED`, `REJECTED` and `REVISION_REQUESTED`; there is no
`WITHDRAWN` member (lines 22-26 of `enums.py`). -/
inductive ApprovalAction where
  | approved
  | rejected
  | revision_requested
deriving DecidableEq, Repr

/-- Python attribute lookup `ApprovalAction.<NAME>`: returns the member
when the class defines it and fails (AttributeError) otherwise.  This is
how `approval.py` reaches `ApprovalAction.WITHDRAWN`, which does not
exist. -/
def approvalActionMember (name : String) : Option ApprovalAction :=
  if name = "APPROVED" then some ApprovalAction.approved
  else if name = "REJECTED" then some ApprovalAction.rejected
  else if name = "REVISION_REQUESTED" then some ApprovalAction.revision_requested
  else Option.none

/-- Python runtime values appearing in revision content fields and in the
`changes` dictionaries of the edit history (`Dict[str, Any]`).  `vNone`
is Python `None`. -/
inductive PyVal where
  | vNone
  | vStr (s : String)
  | vInt (n : Int)
  | vBool (b : Bool)
deriving DecidableEq, Repr

/-- The editable article attributes that have paired `before_*` /
`after_*` columns on `Revision` (`app/models/revision.py`). -/
inductive EField where
  | title
  | info_category
  | keywords
  | importance
  | target
  | question
  | answer
  | additional_comment
  | publish_start
  | publish_end
deriving DecidableEq, Repr

/-- `app/models/user.py` — the fields of `User` consulted by the
permission and workflow services. -/
structure User where
  id : Nat
  role : Role
  is_sv : Bool

/-- `app/models/revision.py` — `Revision`.  The ten paired
`before_<field>` / `after_<field>` columns are modelled as the two maps
`before_values` / `after_values` from `EField`; a `vNone`/absent value is
the SQL `NULL`. -/
structure Revision where
  id : Nat
  target_article_id : String
  proposer_id : Nat
  status : RevisionStatus
  reason : String
  version : Nat
  approver_id : Option Nat
  approved_at : Option Nat
  approval_comment : Option String
  updated_at : Nat
  before_values : EField → Option PyVal
  after_values : EField → Option PyVal

/-- `app/models/approval.py` — `ApprovalHistory` (`created_at` and the
surrogate id are irrelevant to the claims and omitted). -/
structure ApprovalHistory where
  revision_id : Nat
  actor_id : Nat
  action : ApprovalAction
  comment : Option String
deriving DecidableEq, Repr

/-- `app/models/revision.py` — `RevisionEditHistory`.  `changes` is the
JSON dict mapping a field name to its before/after pair, kept in
insertion order. -/
structure RevisionEditHistory where
  revision_id : Nat
  editor_id : Nat
  edited_at : Nat
  changes : List (String × PyVal × PyVal)
  version_before : Nat
  version_after : Nat

/-- `app/models/article.py` — the article attributes copied into the
`before_*` snapshot at revision creation, as one map. -/
structure Article where
  article_id : String
  contents : EField → Option PyVal

/-- The database state the `ApprovalService` operates on: the revisions
table and the approval-history table. -/
structure ApprovalState where
  revisions : List Revision
  histories : List ApprovalHistory

/-- `RevisionRepository.get` / `get_by_id`: fetch a revision by primary
key. -/
def find_revision (store : List Revision) (revision_id : Nat) : Option Revision :=
  store.find? (fun r => r.id == revision_id)

/-- Persisting a mutated revision (`RevisionRepository.update` /
`db.flush()`): replace the row with the same id. -/
def update_revision_list (store : List Revision) (rev : Revision) : List Revision :=
  store.map (fun r => if r.id == rev.id then rev else r)

/-- `app/core/exceptions.py` plus the built-in Python exceptions raised
by the services: each constructor is one exception class. -/
inductive Err where
  | notFoundError (msg : String)
  | invalidStateError (msg : String)
  | authorizationError (msg : String)
  | valueError (msg : String)
  | conflictError (msg : String)
  | attributeError (msg : String)
  | typeError (msg : String)
deriving DecidableEq, Repr

def Err.isInvalidState : Err → Bool
  | .invalidStateError _ => true
  | _ => false

def Err.isAuthorization : Err → Bool
  | .authorizationError _ => true
  | _ => false

/-- The error of a failed call, `Option.none` when the call succeeded. -/
def errClass {α : Type} : Except Err α → Option Err
  | .error e => some e
  | .ok _ => Option.none

def exceptIsOk {α : Type} : Except Err α → Bool
  | .ok _ => true
  | .error _ => false

/-! ### Permission Matrix — `app/services/permission.py`
(`RevisionPermissionService`).  Each function returns
`(allowed, reason)` exactly as the source does. -/

/-- `RevisionPermissionService.can_view_revision`. -/
def can_view_revision (user : User) (revision : Revision) : Bool × Option String :=
  if user.role = Role.admin then (true, Option.none)
  else if user.id = revision.proposer_id then (true, Option.none)
  else if (user.role = Role.approver ∨ user.role = Role.supervisor) ∧
      revision.status ∈ [RevisionStatus.under_review, RevisionStatus.revision_requested,
        RevisionStatus.approved, RevisionStatus.rejected] then (true, Option.none)
  else if revision.status = RevisionStatus.approved then (true, Option.none)
  else (false, some "この修正案を閲覧する権限がありません")

/-- `RevisionPermissionService.can_edit_revision`. -/
def can_edit_revision (user : User) (revision : Revision) : Bool × Option String :=
  if user.role = Role.admin then (true, Option.none)
  else if revision.status = RevisionStatus.draft then
    if user.id = revision.proposer_id then (true, Option.none)
    else (false, some "下書きは提案者のみ編集可能です")
  else if revision.status = RevisionStatus.under_review then
    if user.role = Role.approver ∨ user.role = Role.supervisor then (true, Option.none)
    else (false, some "レビュー中の修正案は承認者のみ編集可能です")
  else if revision.status = RevisionStatus.revision_requested then
    if user.id = revision.proposer_id then (true, Option.none)
    else if user.role = Role.approver ∨ user.role = Role.supervisor then (true, Option.none)
    else (false, some "修正依頼中の修正案は提案者または承認者のみ編集可能です")
  else (false, some (revision.status.value ++ "の修正案は編集できません"))

/-- `RevisionPermissionService.can_delete_revision`. -/
def can_delete_revision (user : User) (revision : Revision) : Bool × Option String :=
  if user.role = Role.admin then (true, Option.none)
  else if revision.status ≠ RevisionStatus.draft then
    (false, some "下書き状態の修正案のみ削除できます")
  else if user.id = revision.proposer_id then (true, Option.none)
  else (false, some "修正案の削除は提案者のみ可能です")

/-- `RevisionPermissionService.can_approve_revision`. -/
def can_approve_revision (user : User) (revision : Revision) : Bool × Option String :=
  if user.role ∉ [Role.admin, Role.approver, Role.supervisor] then
    (false, some "承認権限がありません")
  else if revision.status ∉ [RevisionStatus.under_review, RevisionStatus.revision_requested] then
    (false, some (revision.status.value ++ "の修正案は承認できません"))
  else (true, Option.none)

/-- `RevisionPermissionService.can_reject_revision`. -/
def can_reject_revision (user : User) (revision : Revision) : Bool × Option String :=
  if user.role ∉ [Role.admin, Role.approver, Role.supervisor] then
    (false, some "却下権限がありません")
  else if revision.status ∉ [RevisionStatus.under_review, RevisionStatus.revision_requested] then
    (false, some (revision.status.value ++ "の修正案は却下できません"))
  else (true, Option.none)

/-- `RevisionPermissionService.can_request_modification`. -/
def can_request_modification (user : User) (revision : Revision) : Bool × Option String :=
  if user.role ∉ [Role.admin, Role.approver, Role.supervisor] then
    (false, some "修正指示権限がありません")
  else if revision.status ≠ RevisionStatus.under_review then
    (false, some (revision.status.value ++ "の修正案には修正指示できません"))
  else (true, Option.none)

/-- `RevisionPermissionService.can_submit_revision`. -/
def can_submit_revision (user : User) (revision : Revision) : Bool × Option String :=
  if user.role = Role.admin ∨ user.id = revision.proposer_id then
    if revision.status ∈ [RevisionStatus.draft, RevisionStatus.revision_requested] then
      (true, Option.none)
    else (false, some (revision.status.value ++ "の修正案は提出できません"))
  else (false, some "修正案の提出は提案者のみ可能です")

/-- `RevisionPermissionService.can_withdraw_revision`.  Note: the source
allows withdrawal only while the revision is in `DRAFT`. -/
def can_withdraw_revision (user : User) (revision : Revision) : Bool × Option String :=
  if user.role = Role.admin ∨ user.id = revision.proposer_id then
    if revision.status = RevisionStatus.draft then (true, Option.none)
    else (false, some "下書き状態の修正案のみ取り下げできます")
  else (false, some "修正案の取り下げは提案者のみ可能です")

/-- `RevisionPermissionService.get_available_actions`. -/
def get_available_actions (user : User) (revision : Revision) : List String :=
  (if (can_view_revision user revision).1 then ["view"] else []) ++
  (if (can_edit_revision user revision).1 then ["edit"] else []) ++
  (if (can_delete_revision user revision).1 then ["delete"] else []) ++
  (if (can_submit_revision user revision).1 then ["submit"] else []) ++
  (if (can_withdraw_revision user revision).1 then ["withdraw"] else []) ++
  (if (can_approve_revision user revision).1 then ["approve"] else []) ++
  (if (can_reject_revision user revision).1 then ["reject"] else []) ++
  (if (can_request_modification user revision).1 then ["request_modification"] else [])

/-! ### Workflow Engine — `app/services/workflow.py` (`WorkflowService`). -/

/-- `WorkflowService.state_transitions`: current status → allowed next
statuses. -/
def state_transitions : RevisionStatus → List RevisionStatus
  | .draft => [RevisionStatus.under_review, RevisionStatus.withdrawn]
  | .under_review => [RevisionStatus.approved, RevisionStatus.rejected,
      RevisionStatus.revision_requested]
  | .revision_requested => [RevisionStatus.under_review]
  | .approved => []
  | .rejected => []
  | .withdrawn => []

/-- `WorkflowService.validate_state_transition`. -/
def validate_state_transition (current_status new_status : RevisionStatus) : Bool :=
  (state_transitions current_status).contains new_status

/-- `WorkflowService._check_transition_permission`. -/
def check_transition_permission (revision : Revision) (new_status : RevisionStatus)
    (user_id : Nat) (user_role : Role) : Bool × Option String :=
  if user_role = Role.admin then (true, Option.none)
  else if revision.status = RevisionStatus.draft ∧ new_status = RevisionStatus.under_review then
    if revision.proposer_id = user_id then (true, Option.none)
    else (false, some "修正案の提出は提案者のみ可能です")
  else if revision.status = RevisionStatus.draft ∧ new_status = RevisionStatus.withdrawn then
    if revision.proposer_id = user_id then (true, Option.none)
    else (false, some "修正案の取り下げは提案者のみ可能です")
  else if revision.status = RevisionStatus.under_review then
    if user_role = Role.approver ∨ user_role = Role.supervisor then (true, Option.none)
    else (false, some "承認・却下・修正指示は承認者のみ可能です")
  else if revision.status = RevisionStatus.revision_requested ∧
      new_status = RevisionStatus.under_review then
    if revision.proposer_id = user_id then (true, Option.none)
    else (false, some "修正案の再提出は提案者のみ可能です")
  else (false, some "この操作の権限がありません")

/-- `WorkflowService.can_transition_to_status`. -/
def can_transition_to_status (store : List Revision) (revision_id : Nat)
    (new_status : RevisionStatus) (user_id : Nat) (user_role : Role) : Bool × Option String :=
  match find_revision store revision_id with
  | Option.none => (false, some "修正案が見つかりません")
  | some revision =>
    if !(validate_state_transition revision.status new_status) then
      (false, some (revision.status.value ++ "から" ++ new_status.value ++ "への遷移は無効です"))
    else check_transition_permission revision new_status user_id user_role

/-- `WorkflowService.transition_status`.  Every failure reported by
`can_transition_to_status` — the structural-invalidity failure included —
is raised as `AuthorizationError(reason)`.  On success the revision's
`status` and `updated_at` change; transitioning to `APPROVED`
additionally sets `approver_id`, `approved_at` and `approval_comment`,
and transitioning to `REJECTED` additionally sets `approver_id`. -/
def transition_status (store : List Revision) (revision_id : Nat)
    (new_status : RevisionStatus) (user_id : Nat) (user_role : Role)
    (comment : Option String) (now : Nat) : Except Err (List Revision × Revision) :=
  let cr := can_transition_to_status store revision_id new_status user_id user_role
  if cr.1 then
    match find_revision store revision_id with
    | Option.none => Except.error (Err.invalidStateError "修正案が見つかりません")
    | some revision =>
      let rev1 := { revision with status := new_status, updated_at := now }
      let rev2 :=
        if new_status = RevisionStatus.approved then
          { rev1 with
              approver_id := some user_id
              approved_at := some now
              approval_comment := comment }
        else if new_status = RevisionStatus.rejected then
          { rev1 with approver_id := some user_id }
        else rev1
      Except.ok (update_revision_list store rev2, rev2)
  else Except.error (Err.authorizationError (cr.2.getD "状態遷移の権限がありません"))

/-- `WorkflowService.is_terminal_status`. -/
def is_terminal_status (status : RevisionStatus) : Bool :=
  status ∈ [RevisionStatus.approved, RevisionStatus.rejected, RevisionStatus.withdrawn]

/-! ### Approval Service — `app/services/approval.py` (`ApprovalService`). -/

/-- The attribute names a `RevisionRepository` instance actually exposes:
its own methods (`repositories/revision.py:15-126`) plus those inherited
from `BaseRepository` (`repositories/base.py`).  The name `get_by_id`,
which every `ApprovalService` method calls for its fetch, is NOT among
them — the service's unit tests only pass because they monkey-patch
`get_by_id` onto the instance. -/
def revisionRepoMethods : List String :=
  ["get_with_relations", "get_by_article", "get_by_proposer", "get_by_status",
   "get_pending_revisions", "check_active_revision_exists", "increment_version",
   "create", "get", "get_by_field", "get_multi", "count", "update", "delete",
   "exists", "exists_by_field"]

/-- Python attribute lookup on the repository: succeeds only for names
the class defines; `revision_repo.get_by_id` raises AttributeError. -/
def revision_repo_has (name : String) : Bool :=
  revisionRepoMethods.contains name

/-- `self.approval_repo.create(approval_history)` as `ApprovalService`
writes it: `BaseRepository.create(self, **kwargs)` accepts keyword
arguments only, so passing the prebuilt `ApprovalHistory` row
positionally is a TypeError and no row is ever inserted this way
(`ApprovalHistoryRepository` does not override `create`). -/
def approval_repo_create_positional (_histories : List ApprovalHistory)
    (_hist : ApprovalHistory) : Except Err (List ApprovalHistory) :=
  Except.error (Err.typeError
    "BaseRepository.create takes 1 positional argument but 2 were given")

/-- Python `str.strip()`: drop leading and trailing whitespace. -/
def pyStrip (s : String) : String :=
  String.mk (((s.data.dropWhile Char.isWhitespace).reverse.dropWhile
    Char.isWhitespace).reverse)

/-- The emptiness test `not comment or not comment.strip()` of
`ApprovalService.reject_revision`, with `Option.none` standing for a
Python `None` argument. -/
def comment_is_blank : Option String → Bool
  | Option.none => true
  | some s => s = "" || pyStrip s = ""

/-- `ApprovalService.approve_revision`.  Its first step,
`await self.revision_repo.get_by_id(revision_id)` (approval.py:54),
looks up an attribute the repository classes never define, so on the
real classes every call raises AttributeError here, before any status or
permission check; the later steps are translated below as the source
writes them but are unreachable.  Even behind a patched fetch, the final
positional `approval_repo.create(approval_history)` is a TypeError, so
no success path exists. -/
def approve_revision (st : ApprovalState) (revision_id : Nat) (approver_id : Nat)
    (approver_role : Role) (comment : Option String) (now : Nat) :
    Except Err (ApprovalState × Revision) :=
  if !(revision_repo_has "get_by_id") then
    Except.error (Err.attributeError
      "RevisionRepository object has no attribute get_by_id")
  else
    match find_revision st.revisions revision_id with
    | Option.none => Except.error (Err.notFoundError "Revision not found")
    | some revision =>
      if revision.status ∉ [RevisionStatus.under_review, RevisionStatus.revision_requested] then
        Except.error (Err.invalidStateError
          ("Cannot approve revision in status: " ++ revision.status.value))
      else if approver_role ∉ [Role.approver, Role.supervisor, Role.admin] then
        Except.error (Err.authorizationError "User does not have approval permissions")
      else
        let rev2 := { revision with
          status := RevisionStatus.approved
          approver_id := some approver_id
          approved_at := some now
          approval_comment := comment }
        let hist : ApprovalHistory :=
          { revision_id := revision_id, actor_id := approver_id,
            action := ApprovalAction.approved, comment := comment }
        match approval_repo_create_positional st.histories hist with
        | Except.error e => Except.error e
        | Except.ok hists =>
          Except.ok ({ revisions := update_revision_list st.revisions rev2,
                       histories := hists }, rev2)

/-- `ApprovalService.reject_revision`.  The comment check comes first
(approval.py:110-111), before anything else, so blank-comment calls do
raise ValueError; every call that passes it then dies with
AttributeError at the nonexistent `revision_repo.get_by_id`
(approval.py:114) before any status check or state change.  The later
steps are translated as the source writes them but are unreachable; even
behind a patched fetch the positional `approval_repo.create` call is a
TypeError, so no success path exists. -/
def reject_revision (st : ApprovalState) (revision_id : Nat) (rejector_id : Nat)
    (rejector_role : Role) (comment : Option String) (now : Nat) :
    Except Err (ApprovalState × Revision) :=
  if comment_is_blank comment then
    Except.error (Err.valueError "Rejection comment is required")
  else if !(revision_repo_has "get_by_id") then
    Except.error (Err.attributeError
      "RevisionRepository object has no attribute get_by_id")
  else
    match find_revision st.revisions revision_id with
    | Option.none => Except.error (Err.notFoundError "Revision not found")
    | some revision =>
      if revision.status ∉ [RevisionStatus.under_review, RevisionStatus.revision_requested] then
        Except.error (Err.invalidStateError
          ("Cannot reject revision in status: " ++ revision.status.value))
      else if rejector_role ∉ [Role.approver, Role.supervisor, Role.admin] then
        Except.error (Err.authorizationError "User does not have rejection permissions")
      else
        let rev2 := { revision with
          status := RevisionStatus.rejected
          approver_id := some rejector_id
          approved_at := some now
          approval_comment := comment }
        let hist : ApprovalHistory :=
          { revision_id := revision_id, actor_id := rejector_id,
            action := ApprovalAction.rejected, comment := comment }
        match approval_repo_create_positional st.histories hist with
        | Except.error e => Except.error e
        | Except.ok hists =>
          Except.ok ({ revisions := update_revision_list st.revisions rev2,
                       histories := hists }, rev2)

/-- `ApprovalService.withdraw_revision`.  On the real classes every call
raises AttributeError at the nonexistent `revision_repo.get_by_id`
(approval.py:170) before any check.  Even under the repo's own test seam
(the unit tests monkey-patch `get_by_id` onto the instance), the success
path still never completes: constructing
`ApprovalHistory(action=ApprovalAction.WITHDRAWN, ...)` (approval.py:191)
evaluates the attribute `ApprovalAction.WITHDRAWN`, an `AttributeError`
because the enum has no such member; and were that member present, the
positional `approval_repo.create` call would be a TypeError. -/
def withdraw_revision (st : ApprovalState) (revision_id : Nat) (withdrawer_id : Nat)
    (withdrawer_role : Role) (comment : Option String) :
    Except Err (ApprovalState × Revision) :=
  if !(revision_repo_has "get_by_id") then
    Except.error (Err.attributeError
      "RevisionRepository object has no attribute get_by_id")
  else
    match find_revision st.revisions revision_id with
    | Option.none => Except.error (Err.notFoundError "Revision not found")
    | some revision =>
      if revision.status ∉ [RevisionStatus.draft, RevisionStatus.under_review,
          RevisionStatus.revision_requested] then
        Except.error (Err.invalidStateError
          ("Cannot withdraw revision in status: " ++ revision.status.value))
      else if withdrawer_role ≠ Role.admin ∧ revision.proposer_id ≠ withdrawer_id then
        Except.error (Err.authorizationError "Only proposer or admin can withdraw revision")
      else
        let rev2 := { revision with status := RevisionStatus.withdrawn }
        match approvalActionMember "WITHDRAWN" with
        | Option.none =>
          Except.error (Err.attributeError
            "type object ApprovalAction has no attribute WITHDRAWN")
        | some act =>
          let hist : ApprovalHistory :=
            { revision_id := revision_id, actor_id := withdrawer_id,
              action := act, comment := comment }
          match approval_repo_create_positional st.histories hist with
          | Except.error e => Except.error e
          | Except.ok hists =>
            Except.ok ({ revisions := update_revision_list st.revisions rev2,
                         histories := hists }, rev2)

/-- `ApprovalService.can_user_approve` (a pure function of the user's
role and the revision's status; `user_id` is accepted and ignored by the
source). -/
def can_user_approve (user_id : Nat) (user_role : Role) (revision : Revision) : Bool :=
  if user_role = Role.admin then true
  else if user_role ∈ [Role.approver, Role.supervisor] then
    revision.status ∈ [RevisionStatus.under_review, RevisionStatus.revision_requested]
  else false

/-! ### Edit History Tracker — `app/services/edit_history.py`
(`EditHistoryService`) and `RevisionEditHistoryRepository`. -/

/-- `fields_to_compare` in
`EditHistoryService.calculate_field_changes`. -/
def fields_to_compare : List String :=
  ["title", "info_category", "keywords", "importance",
   "target", "question", "answer", "additional_comment",
   "publish_start", "publish_end"]

/-- Python `dict.get(key)`: the stored value, or `None` when the key is
absent. -/
def pyGet (d : List (String × PyVal)) (key : String) : PyVal :=
  (d.lookup key).getD PyVal.vNone

/-- `EditHistoryService.calculate_field_changes`: for each field of the
fixed `fields_to_compare` list, record the `(before, after)` pair iff
the two values differ. -/
def calculate_field_changes (before_data after_data : List (String × PyVal)) :
    List (String × PyVal × PyVal) :=
  fields_to_compare.filterMap (fun field =>
    let before_value := pyGet before_data field
    let after_value := pyGet after_data field
    if before_value ≠ after_value then some (field, before_value, after_value)
    else Option.none)

def insert_desc (r : RevisionEditHistory) : List RevisionEditHistory → List RevisionEditHistory
  | [] => [r]
  | x :: xs => if x.edited_at ≤ r.edited_at then r :: x :: xs else x :: insert_desc r xs

/-- `RevisionEditHistoryRepository.get_by_revision`: the revision's edit
records ordered by `edited_at` DESCENDING (`.order_by(edited_at.desc())`). -/
def get_by_revision (db : List RevisionEditHistory) (revision_id : Nat) :
    List RevisionEditHistory :=
  ((db.filter (fun h => h.revision_id == revision_id)).foldr insert_desc [])

/-- One entry of a field's `change_history` in the version diff
(`from` / `to` are the dict keys in the source). -/
structure FieldChange where
  version : Nat
  editor_id : Nat
  changed_at : Nat
  from_value : PyVal
  to_value : PyVal
deriving DecidableEq, Repr

/-- One field's consolidated entry in the version diff. -/
structure FieldDiff where
  initial_value : PyVal
  final_value : PyVal
  change_history : List FieldChange
deriving DecidableEq, Repr

/-- The inner loop body of `EditHistoryService.get_version_diff`: merge
one `(field, before, after)` change of record `h` into the
`combined_changes` insertion-ordered dict. -/
def merge_change (m : List (String × FieldDiff)) (h : RevisionEditHistory)
    (field : String) (before after : PyVal) : List (String × FieldDiff) :=
  let entry : FieldChange :=
    { version := h.version_after, editor_id := h.editor_id,
      changed_at := h.edited_at, from_value := before, to_value := after }
  match m.lookup field with
  | Option.none =>
    m ++ [(field, { initial_value := before, final_value := after,
                    change_history := [entry] })]
  | some _ =>
    m.map (fun p =>
      if p.1 == field then
        (p.1, { p.2 with
          final_value := after
          change_history := p.2.change_history ++ [entry] })
      else p)

/-- The shape of `EditHistoryService.get_version_diff`'s return dict. -/
structure VersionDiff where
  revision_id : Nat
  from_version : Nat
  to_version : Nat
  changes : List (String × FieldDiff)
  total_edits : Nat

/-- `EditHistoryService.get_version_diff`: filter the (descending-ordered)
records to those with `version_before >= from_version` and
`version_after <= to_version`, then fold their `changes` dicts into one
consolidated per-field view. -/
def get_version_diff (db : List RevisionEditHistory) (revision_id : Nat)
    (from_version to_version : Nat) : VersionDiff :=
  let histories := get_by_revision db revision_id
  let relevant_histories := histories.filter (fun h =>
    from_version ≤ h.version_before && h.version_after ≤ to_version)
  let combined_changes := relevant_histories.foldl (fun m h =>
    h.changes.foldl (fun m c => merge_change m h c.1 c.2.1 c.2.2) m) []
  { revision_id := revision_id, from_version := from_version,
    to_version := to_version, changes := combined_changes,
    total_edits := relevant_histories.length }

/-! ### Revision Service — `app/services/revision.py` (`RevisionService`)
and `RevisionRepository.check_active_revision_exists`. -/

/-- Membership of the active statuses checked by
`check_active_revision_exists`. -/
def is_active_status (s : RevisionStatus) : Bool :=
  [RevisionStatus.draft, RevisionStatus.under_review,
   RevisionStatus.revision_requested].contains s

/-- `RevisionRepository.check_active_revision_exists`: does any revision
for `article_id` hold one of the active statuses (optionally excluding a
given revision id)? -/
def check_active_revision_exists (store : List Revision) (article_id : String)
    (exclude_id : Option Nat) : Bool :=
  store.any (fun r =>
    r.target_article_id == article_id && is_active_status r.status &&
    (match exclude_id with
     | Option.none => true
     | some e => !(r.id == e)))

/-- The input of `RevisionService.create_revision`
(`RevisionCreate`): target article, reason, and the proposed `after`
values (`Option.none` meaning "no change to this field", left `NULL`). -/
structure RevisionCreate where
  target_article_id : String
  reason : String
  modifications : EField → Option PyVal

/-- `RevisionService.create_revision`: article must exist (NotFound), no
active revision may exist for the article (Conflict); the new revision
starts in `DRAFT` with `version = 1`, its `before_*` snapshot copied
from the article and its `after_*` values from the modifications. -/
def create_revision (articles : List Article) (store : List Revision)
    (data : RevisionCreate) (user_id : Nat) (new_id : Nat) (now : Nat) :
    Except Err (List Revision × Revision) :=
  match articles.find? (fun a => a.article_id == data.target_article_id) with
  | Option.none =>
    Except.error (Err.notFoundError ("Article " ++ data.target_article_id ++ " not found"))
  | some article =>
    if check_active_revision_exists store data.target_article_id Option.none then
      Except.error (Err.conflictError
        ("An active revision already exists for article " ++ data.target_article_id))
    else
      let revision : Revision :=
        { id := new_id
          target_article_id := data.target_article_id
          proposer_id := user_id
          status := RevisionStatus.draft
          reason := data.reason
          version := 1
          approver_id := Option.none
          approved_at := Option.none
          approval_comment := Option.none
          updated_at := now
          before_values := article.contents
          after_values := data.modifications }
      Except.ok (store ++ [revision], revision)

/-- The number of active revisions a store holds for one article — the
quantity the single-active-revision invariant bounds by 1. -/
def active_revision_count (store : List Revision) (article_id : String) : Nat :=
  (store.filter (fun r =>
    r.target_article_id == article_id && is_active_status r.status)).length

/-! ### Concrete instances used by witnesses and counterexamples. -/

/-- An empty content map (all columns `NULL`). -/
def noContent : EField → Option PyVal := fun _ => Option.none

/-- A revision in the terminal `APPROVED` status, proposed by user 2. -/
def approvedRev : Revision :=
  { id := 1, target_article_id := "KBA-1", proposer_id := 2,
    status := RevisionStatus.approved, reason := "需要十分な理由", version := 1,
    approver_id := Option.none, approved_at := Option.none,
    approval_comment := Option.none, updated_at := 0,
    before_values := noContent, after_values := noContent }

/-- The same revision while under review. -/
def underReviewRev : Revision := { approvedRev with status := RevisionStatus.under_review }

/-- The same revision as a draft. -/
def draftRev : Revision := { approvedRev with status := RevisionStatus.draft }

/-- An administrator who is not the proposer of `approvedRev`. -/
def adminUser : User := { id := 9, role := Role.admin, is_sv := false }

/-- A general-role user carrying the supervisor flag. -/
def generalSvUser : User := { id := 9, role := Role.general, is_sv := true }

/-- The same user with role Supervisor. -/
def supervisorSvUser : User := { id := 9, role := Role.supervisor, is_sv := true }

/-- The value a successful call returns, `Option.none` on failure. -/
def okValue {α : Type} : Except Err α → Option α
  | .ok a => some a
  | .error _ => Option.none

/-- An approval-service state holding only `underReviewRev`. -/
def underReviewState : ApprovalState := { revisions := [underReviewRev], histories := [] }

/-- An approval-service state holding only `approvedRev`. -/
def approvedState : ApprovalState := { revisions := [approvedRev], histories := [] }

/-- First content edit of revision 1: title a → b, version 1 → 2. -/
def editOne : RevisionEditHistory :=
  { revision_id := 1, editor_id := 7, edited_at := 1,
    changes := [("title", PyVal.vStr "a", PyVal.vStr "b")],
    version_before := 1, version_after := 2 }

/-- Second content edit of revision 1: title b → c, version 2 → 3. -/
def editTwo : RevisionEditHistory :=
  { revision_id := 1, editor_id := 7, edited_at := 2,
    changes := [("title", PyVal.vStr "b", PyVal.vStr "c")],
    version_before := 2, version_after := 3 }

/-- The article revised by the fixtures. -/
def wArticle : Article := { article_id := "KBA-1", contents := noContent }

/-- A creation request for `wArticle` by user 2. -/
def wData : RevisionCreate :=
  { target_article_id := "KBA-1", reason := "需要十分な理由", modifications := noContent }

/-- The revision `create_revision [wArticle] [] wData 2 1 5` creates. -/
def wCreatedRev : Revision :=
  { id := 1, target_article_id := "KBA-1", proposer_id := 2,
    status := RevisionStatus.draft, reason := wData.reason, version := 1,
    approver_id := Option.none, approved_at := Option.none,
    approval_comment := Option.none, updated_at := 5,
    before_values := wArticle.contents, after_values := wData.modifications }

/-- `underReviewRev` after the transition to Rejected by user 9 at time 5. -/
def wRejectedRev : Revision :=
  { underReviewRev with
      status := RevisionStatus.rejected
      updated_at := 5
      approver_id := some 9 }

/-- `underReviewRev` after `reject_revision` by user 9 at time 5. -/
def wRejectedRevFull : Revision :=
  { underReviewRev with
      status := RevisionStatus.rejected
      approver_id := some 9
      approved_at := some 5
      approval_comment := some "内容に誤りがあります" }

/-! ### Theorems. -/

/-- C1, counterexample: at the structurally-invalid transition
Approved → Draft attempted by an Admin, `transition_status` does fail
with the revision untouched, but the raised error is an Authorization
error and not an InvalidState error — refuting the claim as stated. -/
theorem c1_structural_failure_class_counterexample :
    (errClass (transition_status [approvedRev] 1 RevisionStatus.draft 9 Role.admin
      Option.none 5)).map Err.isInvalidState = some false ∧
    (errClass (transition_status [approvedRev] 1 RevisionStatus.draft 9 Role.admin
      Option.none 5)).map Err.isAuthorization = some true :=
  ⟨rfl, rfl⟩

/-- C1, amended: for every (from, to) pair outside the transition table
and every actor id and role (Admin included), `transition_status` on an
existing revision fails — leaving the store untouched — with an
Authorization-class error carrying the structural-invalidity message
(the structural check runs before the permission check, but the service
wraps its result in `AuthorizationError`). -/
theorem c1_invalid_transition_fails_authorization
    (store : List Revision) (revision_id : Nat) (rev : Revision)
    (new_status : RevisionStatus) (user_id : Nat) (user_role : Role)
    (comment : Option String) (now : Nat)
    (hfind : find_revision store revision_id = some rev)
    (hinvalid : validate_state_transition rev.status new_status = false) :
    transition_status store revision_id new_status user_id user_role comment now =
      Except.error (Err.authorizationError
        (rev.status.value ++ "から" ++ new_status.value ++ "への遷移は無効です")) := by
  unfold transition_status can_transition_to_status
  rw [hfind]
  simp [hinvalid]

/-- C1 witness: the amended theorem applied at Approved → Draft by an
Admin. -/
theorem c1_invalid_transition_fails_authorization_witness :
    transition_status [approvedRev] 1 RevisionStatus.draft 9 Role.admin Option.none 5 =
      Except.error (Err.authorizationError
        (approvedRev.status.value ++ "から" ++ RevisionStatus.draft.value ++
          "への遷移は無効です")) :=
  c1_invalid_transition_fails_authorization [approvedRev] 1 approvedRev
    RevisionStatus.draft 9 Role.admin Option.none 5 rfl rfl

/-- C2: `withdraw_revision` can never succeed: on the real classes every
call raises AttributeError at the nonexistent `revision_repo.get_by_id`,
and even under the repo's own test seam (a patched fetch) every path
that passes the state and permission checks evaluates the attribute
`ApprovalAction.WITHDRAWN`, which the enum does not define — so the call
raises AttributeError instead of setting status Withdrawn and writing an
ApprovalHistory(action=withdrawn) record. -/
theorem c2_withdraw_revision_never_succeeds (st : ApprovalState)
    (revision_id withdrawer_id : Nat) (withdrawer_role : Role) (comment : Option String) :
    exceptIsOk (withdraw_revision st revision_id withdrawer_id withdrawer_role comment)
      = false := rfl

/-- C3, counterexample: an Admin attempting to withdraw an UnderReview
revision is denied by `can_withdraw_revision`, although the claim allows
withdrawal for statuses UnderReview and RevisionRequested as well. -/
theorem c3_withdraw_under_review_denied_counterexample :
    adminUser.role = Role.admin ∧
    underReviewRev.status = RevisionStatus.under_review ∧
    (can_withdraw_revision adminUser underReviewRev).1 = false :=
  ⟨rfl, rfl, rfl⟩

/-- C3, amended: `can_withdraw_revision` allows withdrawal exactly when
the user is the proposer or an Admin AND the revision status is Draft
(only Draft, not UnderReview or RevisionRequested); in every other case
it denies with a reason (the reason is absent exactly on allow). -/
theorem c3_can_withdraw_characterization (user : User) (revision : Revision) :
    ((can_withdraw_revision user revision).1 = true ↔
      ((user.role = Role.admin ∨ user.id = revision.proposer_id) ∧
        revision.status = RevisionStatus.draft)) ∧
    ((can_withdraw_revision user revision).2 = Option.none ↔
      ((user.role = Role.admin ∨ user.id = revision.proposer_id) ∧
        revision.status = RevisionStatus.draft)) := by
  unfold can_withdraw_revision
  constructor <;> split <;> (try split) <;> simp_all

/-- C4, counterexample: a General-role user with `is_sv = true` is denied
approval of an UnderReview revision while the identical user with role
Supervisor is allowed — so the `is_sv` flag does not grant
supervisor-equivalent results in the Permission Matrix. -/
theorem c4_is_sv_not_supervisor_counterexample :
    generalSvUser.is_sv = true ∧
    (can_approve_revision generalSvUser underReviewRev).1 = false ∧
    (can_approve_revision supervisorSvUser underReviewRev).1 = true :=
  ⟨rfl, rfl, rfl⟩

/-- C4, amended: every Permission Matrix decision function ignores the
`is_sv` flag entirely — its result depends only on the user's id and
role, so an `is_sv = true` user is treated according to their `role`
field (not as a Supervisor). -/
theorem c4_permission_matrix_ignores_is_sv (i : Nat) (ro : Role) (sv : Bool)
    (revision : Revision) :
    can_view_revision ⟨i, ro, sv⟩ revision = can_view_revision ⟨i, ro, false⟩ revision ∧
    can_edit_revision ⟨i, ro, sv⟩ revision = can_edit_revision ⟨i, ro, false⟩ revision ∧
    can_delete_revision ⟨i, ro, sv⟩ revision = can_delete_revision ⟨i, ro, false⟩ revision ∧
    can_approve_revision ⟨i, ro, sv⟩ revision = can_approve_revision ⟨i, ro, false⟩ revision ∧
    can_reject_revision ⟨i, ro, sv⟩ revision = can_reject_revision ⟨i, ro, false⟩ revision ∧
    can_request_modification ⟨i, ro, sv⟩ revision =
      can_request_modification ⟨i, ro, false⟩ revision ∧
    can_submit_revision ⟨i, ro, sv⟩ revision = can_submit_revision ⟨i, ro, false⟩ revision ∧
    can_withdraw_revision ⟨i, ro, sv⟩ revision = can_withdraw_revision ⟨i, ro, false⟩ revision :=
  ⟨rfl, rfl, rfl, rfl, rfl, rfl, rfl, rfl⟩

/-- C5: `reject_revision` called with a blank comment (None, empty, or
whitespace-only) fails with the Validation-class `ValueError` before any
state is read or changed — that half of the claim holds; but at the
claim's success input (a valid comment on an existing UnderReview
revision, Approver actor) the call raises AttributeError at the
nonexistent `revision_repo.get_by_id` before any status check: the
revision is never set to Rejected and no ApprovalHistory row is ever
written. -/
theorem c5_reject_revision_blank_check_then_fetch_failure :
    reject_revision underReviewState 1 9 Role.approver Option.none 5 =
      Except.error (Err.valueError "Rejection comment is required") ∧
    reject_revision underReviewState 1 9 Role.approver (some "") 5 =
      Except.error (Err.valueError "Rejection comment is required") ∧
    reject_revision underReviewState 1 9 Role.approver (some "   ") 5 =
      Except.error (Err.valueError "Rejection comment is required") ∧
    reject_revision underReviewState 1 9 Role.approver (some "内容に誤りがあります") 5 =
      Except.error (Err.attributeError
        "RevisionRepository object has no attribute get_by_id") :=
  ⟨rfl, rfl, rfl, rfl⟩

/-- C6, counterexample: the maps differ at key "foo" — present in both —
yet `calculate_field_changes` returns the empty diff, because "foo" is
not one of the ten hard-coded fields it compares; this refutes the
claim's "any field present in either map" reading. -/
theorem c6_unknown_field_ignored_counterexample :
    calculate_field_changes [("foo", PyVal.vInt 1)] [("foo", PyVal.vInt 2)] = [] ∧
    "foo" ∈ ([("foo", PyVal.vInt 1)] : List (String × PyVal)).map Prod.fst ∧
    pyGet [("foo", PyVal.vInt 1)] "foo" ≠ pyGet [("foo", PyVal.vInt 2)] "foo" := by
  refine ⟨rfl, ?_, ?_⟩ <;> decide

/-- C6, amended: `calculate_field_changes` is a pure diff whose result
contains a field f exactly when f is one of the ten fields of
`fields_to_compare` AND the two maps disagree at f (missing keys read as
None); fields outside that fixed list are never reported.  In
particular `calculate_field_changes X X = []` for every map X, including
maps holding None values. -/
theorem c6_calculate_field_changes_characterization
    (before_data after_data : List (String × PyVal)) (f : String) (b a : PyVal) :
    ((f, b, a) ∈ calculate_field_changes before_data after_data ↔
      (f ∈ fields_to_compare ∧ pyGet before_data f ≠ pyGet after_data f ∧
        b = pyGet before_data f ∧ a = pyGet after_data f)) ∧
    calculate_field_changes before_data before_data = [] := by
  constructor
  · unfold calculate_field_changes
    simp only [List.mem_filterMap]
    constructor
    · rintro ⟨x, hx, hg⟩
      by_cases h : pyGet before_data x ≠ pyGet after_data x
      · rw [if_pos h] at hg
        obtain ⟨rfl, rfl, rfl⟩ := Prod.mk.injEq .. ▸ Option.some.inj hg
        exact ⟨hx, h, rfl, rfl⟩
      · rw [if_neg h] at hg
        exact absurd hg (Option.noConfusion)
    · rintro ⟨hf, hne, rfl, rfl⟩
      exact ⟨f, hf, by rw [if_pos hne]⟩
  · unfold calculate_field_changes
    rw [List.filterMap_eq_nil_iff]
    intro x _
    simp

/-- C7: on a revision with two consecutive edits to the same field
(title a→b at version 1→2, then b→c at version 2→3),
`get_version_diff(1, 3)` matches both records (total_edits = 2) but —
because the repository returns records newest-first while the
aggregation assumes oldest-first — reports initial_value = b and
final_value = b, instead of the chronological initial_value = a and
final_value = c the claim (and the field names) require. -/
theorem c7_version_diff_initial_final_inverted :
    ((get_version_diff [editOne, editTwo] 1 1 3).changes.lookup "title").map
        (fun d => (d.initial_value, d.final_value)) =
      some (PyVal.vStr "b", PyVal.vStr "b") ∧
    (get_version_diff [editOne, editTwo] 1 1 3).total_edits = 2 := by
  refine ⟨?_, rfl⟩
  rfl

/-- C8: with the target article present, `create_revision` fails with
Conflict exactly when an active (Draft/UnderReview/RevisionRequested)
revision already exists for that article; with no such active revision
the creation is not rejected by this check; and any successful creation
preserves the invariant that each article has at most one active
revision. -/
theorem c8_single_active_revision_per_article (articles : List Article)
    (store : List Revision) (data : RevisionCreate)
    (user_id new_id now : Nat) (article : Article) :
    (articles.find? (fun a => a.article_id == data.target_article_id) = some article →
      check_active_revision_exists store data.target_article_id Option.none = true →
      create_revision articles store data user_id new_id now =
        Except.error (Err.conflictError
          ("An active revision already exists for article " ++ data.target_article_id))) ∧
    (articles.find? (fun a => a.article_id == data.target_article_id) = some article →
      check_active_revision_exists store data.target_article_id Option.none = false →
      exceptIsOk (create_revision articles store data user_id new_id now) = true) ∧
    (∀ store2 rev, (∀ aid, active_revision_count store aid ≤ 1) →
      create_revision articles store data user_id new_id now = Except.ok (store2, rev) →
      ∀ aid, active_revision_count store2 aid ≤ 1) := by
  refine ⟨?_, ?_, ?_⟩
  · intro hfind hact
    unfold create_revision
    rw [hfind]
    simp [hact]
  · intro hfind hact
    unfold create_revision
    rw [hfind]
    simp [hact, exceptIsOk]
  · intro store2 rev hinv hok aid
    unfold create_revision at hok
    rcases hfind : articles.find? (fun a => a.article_id == data.target_article_id) with
      _ | art
    · rw [hfind] at hok
      exact absurd hok (by simp)
    · rw [hfind] at hok
      cases hact : check_active_revision_exists store data.target_article_id Option.none
      · rw [hact] at hok
        simp only [Bool.false_eq_true, if_false, Except.ok.injEq, Prod.mk.injEq] at hok
        obtain ⟨hst, hrev⟩ := hok
        subst hst
        unfold active_revision_count
        rw [List.filter_append, List.length_append]
        by_cases haid : data.target_article_id = aid
        · have hzero : (store.filter (fun r =>
              r.target_article_id == aid && is_active_status r.status)).length = 0 := by
            rw [List.length_eq_zero, List.filter_eq_nil_iff]
            intro r hr
            have hr2 := (List.any_eq_false.mp hact) r hr
            subst haid
            simpa using hr2
          rw [hzero]
          subst haid
          simp [is_active_status]
        · have hbeq : (data.target_article_id == aid) = false := beq_eq_false_iff_ne.mpr haid
          simp only [List.filter_cons, List.filter_nil, hbeq, Bool.false_and,
            Bool.false_eq_true, if_false, List.length_nil, Nat.add_zero]
          simpa [active_revision_count] using hinv aid
      · rw [hact] at hok
        exact absurd hok (by simp)

/-- C8 witness: the theorem applied to article KBA-1 — creation blocked
by an existing draft, creation succeeding on an empty store, and the
invariant holding for the store the successful creation produced. -/
theorem c8_single_active_revision_per_article_witness :
    create_revision [wArticle] [draftRev] wData 2 1 5 =
      Except.error (Err.conflictError
        ("An active revision already exists for article " ++ wData.target_article_id)) ∧
    exceptIsOk (create_revision [wArticle] [] wData 2 1 5) = true ∧
    active_revision_count [wCreatedRev] "KBA-1" ≤ 1 :=
  ⟨(c8_single_active_revision_per_article [wArticle] [draftRev] wData 2 1 5 wArticle).1
      rfl rfl,
   (c8_single_active_revision_per_article [wArticle] [] wData 2 1 5 wArticle).2.1 rfl rfl,
   (c8_single_active_revision_per_article [wArticle] [] wData 2 1 5 wArticle).2.2
      [wCreatedRev] wCreatedRev (fun aid => by simp [active_revision_count]) rfl "KBA-1"⟩

/-- C9, counterexample: a successful transition UnderReview → Rejected
sets `approver_id` to the acting user (the original had none), although
the claim says every non-Approved transition leaves `approver_id`
unchanged. -/
theorem c9_rejected_sets_approver_counterexample :
    underReviewRev.approver_id = Option.none ∧
    (okValue (transition_status [underReviewRev] 1 RevisionStatus.rejected 9
        Role.approver Option.none 5)).map (fun p => p.2.approver_id) =
      some (some 9) :=
  ⟨rfl, rfl⟩

/-- C9, amended: a successful `transition_status` always sets exactly
`status` and `updated_at`, leaves `version` and all before/after content
fields (and identity fields) unchanged, and additionally sets
`approver_id`, `approved_at` and `approval_comment` when the new status
is Approved — and also sets `approver_id` (alone) when the new status is
Rejected; for UnderReview, RevisionRequested and Withdrawn the approval
fields are untouched. -/
theorem c9_transition_status_frame (store : List Revision) (revision_id : Nat)
    (new_status : RevisionStatus) (user_id : Nat) (user_role : Role)
    (comment : Option String) (now : Nat) (rev : Revision)
    (store2 : List Revision) (rev2 : Revision)
    (hfind : find_revision store revision_id = some rev)
    (hok : transition_status store revision_id new_status user_id user_role comment now =
      Except.ok (store2, rev2)) :
    rev2.id = rev.id ∧ rev2.target_article_id = rev.target_article_id ∧
    rev2.proposer_id = rev.proposer_id ∧ rev2.reason = rev.reason ∧
    rev2.status = new_status ∧ rev2.updated_at = now ∧
    rev2.version = rev.version ∧ rev2.before_values = rev.before_values ∧
    rev2.after_values = rev.after_values ∧
    (new_status = RevisionStatus.approved →
      rev2.approver_id = some user_id ∧ rev2.approved_at = some now ∧
        rev2.approval_comment = comment) ∧
    (new_status = RevisionStatus.rejected →
      rev2.approver_id = some user_id ∧ rev2.approved_at = rev.approved_at ∧
        rev2.approval_comment = rev.approval_comment) ∧
    (new_status ≠ RevisionStatus.approved → new_status ≠ RevisionStatus.rejected →
      rev2.approver_id = rev.approver_id ∧ rev2.approved_at = rev.approved_at ∧
        rev2.approval_comment = rev.approval_comment) ∧
    store2 = update_revision_list store rev2 := by
  unfold transition_status at hok
  rw [hfind] at hok
  by_cases hcan : (can_transition_to_status store revision_id new_status user_id user_role).1
  · rw [if_pos hcan] at hok
    by_cases ha : new_status = RevisionStatus.approved
    · simp only [ha, if_pos rfl, Except.ok.injEq, Prod.mk.injEq] at hok
      obtain ⟨hst, hrev⟩ := hok
      subst hst
      subst hrev
      subst ha
      refine ⟨rfl, rfl, rfl, rfl, rfl, rfl, rfl, rfl, rfl, ?_, ?_, ?_, rfl⟩
      · intro _; exact ⟨rfl, rfl, rfl⟩
      · intro h; exact absurd h (by simp)
      · intro h _; exact absurd rfl h
    · by_cases hr : new_status = RevisionStatus.rejected
      · simp only [if_neg ha, hr, if_pos rfl, Except.ok.injEq, Prod.mk.injEq] at hok
        obtain ⟨hst, hrev⟩ := hok
        subst hst
        subst hrev
        subst hr
        refine ⟨rfl, rfl, rfl, rfl, rfl, rfl, rfl, rfl, rfl, ?_, ?_, ?_, rfl⟩
        · intro h; exact absurd h ha
        · intro _; exact ⟨rfl, rfl, rfl⟩
        · intro _ h; exact absurd rfl h
      · simp only [if_neg ha, if_neg hr, Except.ok.injEq, Prod.mk.injEq] at hok
        obtain ⟨hst, hrev⟩ := hok
        subst hst
        subst hrev
        refine ⟨rfl, rfl, rfl, rfl, rfl, rfl, rfl, rfl, rfl, ?_, ?_, ?_, rfl⟩
        · intro h; exact absurd h ha
        · intro h; exact absurd h hr
        · intro _ _; exact ⟨rfl, rfl, rfl⟩
  · rw [if_neg hcan] at hok
    exact absurd hok (by simp)

/-- C9 witness: the amended theorem applied to the transition
UnderReview → Rejected by approver 9 at time 5 on `underReviewRev`. -/
theorem c9_transition_status_frame_witness :
    wRejectedRev.id = underReviewRev.id ∧
    wRejectedRev.target_article_id = underReviewRev.target_article_id ∧
    wRejectedRev.proposer_id = underReviewRev.proposer_id ∧
    wRejectedRev.reason = underReviewRev.reason ∧
    wRejectedRev.status = RevisionStatus.rejected ∧
    wRejectedRev.updated_at = 5 ∧
    wRejectedRev.version = underReviewRev.version ∧
    wRejectedRev.before_values = underReviewRev.before_values ∧
    wRejectedRev.after_values = underReviewRev.after_values ∧
    (RevisionStatus.rejected = RevisionStatus.approved →
      wRejectedRev.approver_id = some 9 ∧ wRejectedRev.approved_at = some 5 ∧
        wRejectedRev.approval_comment = Option.none) ∧
    (RevisionStatus.rejected = RevisionStatus.rejected →
      wRejectedRev.approver_id = some 9 ∧
        wRejectedRev.approved_at = underReviewRev.approved_at ∧
        wRejectedRev.approval_comment = underReviewRev.approval_comment) ∧
    (RevisionStatus.rejected ≠ RevisionStatus.approved →
      RevisionStatus.rejected ≠ RevisionStatus.rejected →
      wRejectedRev.approver_id = underReviewRev.approver_id ∧
        wRejectedRev.approved_at = underReviewRev.approved_at ∧
        wRejectedRev.approval_comment = underReviewRev.approval_comment) ∧
    [wRejectedRev] = update_revision_list [underReviewRev] wRejectedRev :=
  c9_transition_status_frame [underReviewRev] 1 RevisionStatus.rejected 9 Role.approver
    Option.none 5 underReviewRev [wRejectedRev] wRejectedRev rfl rfl

/-- C10, counterexample: `can_user_approve` returns true for an Admin on
the terminal-status `approvedRev`, but `approve_revision` there does not
fail with an InvalidState error as the claim asserts — it fails with the
AttributeError raised at the nonexistent `revision_repo.get_by_id`
fetch, before its status check. -/
theorem c10_approve_terminal_error_class_counterexample :
    can_user_approve 9 Role.admin approvedRev = true ∧
    (errClass (approve_revision approvedState 1 9 Role.admin Option.none 5)).map
      Err.isInvalidState = some false :=
  ⟨rfl, rfl⟩

/-- C10, amended: `can_user_approve` returns true for every revision
whenever the user's role is Admin, regardless of the revision's status —
including terminal statuses, for which `approve_revision` itself
nonetheless fails, not with InvalidState but with the AttributeError it
raises on every input at the nonexistent `revision_repo.get_by_id`
(approval.py:54), before the status check of approval.py:59-60; for
Approver and Supervisor roles `can_user_approve` returns true exactly
when the status is UnderReview or RevisionRequested, and for every other
role it returns false. -/
theorem c10_can_user_approve_characterization (user_id : Nat) (user_role : Role)
    (rev : Revision) (st : ApprovalState) (revision_id : Nat)
    (comment : Option String) (now : Nat) :
    (can_user_approve user_id user_role rev = true ↔
      (user_role = Role.admin ∨
        ((user_role = Role.approver ∨ user_role = Role.supervisor) ∧
          (rev.status = RevisionStatus.under_review ∨
            rev.status = RevisionStatus.revision_requested)))) ∧
    approve_revision st revision_id user_id user_role comment now =
      Except.error (Err.attributeError
        "RevisionRepository object has no attribute get_by_id") := by
  constructor
  · cases user_role <;> cases hs : rev.status <;>
      simp [can_user_approve, hs]
  · rfl
